import Mathlib

/-!
Verification development for the PoliDrone estimation notebooks.

We shallowly embed the estimator code of the repository:

* the one-dimensional Kalman filter of `3.EKF/Kalman_Filter_Exercise`
  (state `(velocity, position)`, rational arithmetic, matrices spelled out
  as 2x2 / 2x1 components exactly as in the notebook);
* the Lidar particle-filter utilities of `5.gps_denied_navigation`
  (`bresenham` line rasterization, `get_distance`, `shoot_rays`,
  `lookup_prob`, `measure`, `importance`, `sensor_fusion`,
  `sample_from_prior`, `simulate`), with random draws made explicit
  function arguments.

Where the notebooks leave a body as a fill-in exercise (the Kalman
`predict`/`update` assembly, `particle_filter`, `resample`) or rely on a
helper module that is not part of the sources (`utils.inbounds`,
`utils.valid_location`), the definition is modelled from the
specification and marked as such in its doc comment.
-/

/-- Truncation of a rational toward zero, the semantics of Python `int(x)`
applied to the float draws of `sample_from_prior`. -/
def pyIntQ (q : ℚ) : ℤ :=
  if 0 ≤ q then ⌊q⌋ else -⌊-q⌋

/-- Truncation of a real toward zero, the semantics of Python `int(x)` as
used by `get_distance` on the ray endpoint coordinates. -/
noncomputable def pyInt (r : ℝ) : ℤ :=
  if 0 ≤ r then ⌊r⌋ else -⌊-r⌋

/-- Python float `a % b`, which is `a - b * floor (a / b)`; for `b > 0` the
result lies in `[0, b)`.  Used by `shoot_rays` to wrap bearings. -/
noncomputable def pyMod (a b : ℝ) : ℝ :=
  a - b * ⌊a / b⌋

/-- `np.radians`: degrees to radians. -/
noncomputable def radians (d : ℝ) : ℝ :=
  d * (Real.pi / 180)

/-- A fixed binary occupancy grid.  `cell x y` is the entry the notebooks
access as `grid_map[y, x]` (`1` marks an obstacle), `width`/`height` are
`grid_map.shape[1]`/`grid_map.shape[0]`. -/
structure Grid where
  width : ℤ
  height : ℤ
  cell : ℤ → ℤ → ℕ

/-- Modelled from the spec: `utils.inbounds(map, x, y)` (the module is not
among the sources), the bounds predicate of the occupancy map provider —
true iff `0 ≤ x < width` and `0 ≤ y < height`. -/
def inbounds (g : Grid) (x y : ℤ) : Bool :=
  decide (0 ≤ x) && decide (x < g.width) && decide (0 ≤ y) && decide (y < g.height)

/-- Modelled from the spec: `utils.valid_location(map, x, y)` (the module is
not among the sources) — the cell is in bounds and free. -/
def valid_location (g : Grid) (x y : ℤ) : Bool :=
  inbounds g x y && decide (g.cell x y = 0)

/-- The map scenario of the round-trip test in the sensor-fusion notebook:
a grid with a single obstacle cell at `(435, 500)` (the notebook's map has
its first obstacle on the 45 degree ray from `(385, 450)` at that cell;
the data file the notebook loads is not among the sources). -/
def gridC4 : Grid :=
  ⟨921, 921, fun x y => if x = 435 ∧ y = 500 then 1 else 0⟩

/-- A small map with no free cell at all: every cell is an obstacle. -/
def grid_obs : Grid :=
  ⟨2, 2, fun _ _ => 1⟩

/-- A small map in which every cell is free. -/
def grid_free : Grid :=
  ⟨2, 2, fun _ _ => 0⟩

/-- Loop of the `bresenham` line rasterization used by `get_distance` (the
`bresenham` pip dependency): at each step the current cell is emitted, then
the decision variable `D` is updated (`y` advances when `D ≥ 0`). -/
def bres_loop (x0 y0 xx xy yx yy twoDX twoDY : ℤ) :
    ℕ → ℤ → ℤ → ℤ → List (ℤ × ℤ)
  | 0, _, _, _ => []
  | n + 1, x, y, D =>
    (x0 + x * xx + y * yx, y0 + x * xy + y * yy) ::
      (if 0 ≤ D then
        bres_loop x0 y0 xx xy yx yy twoDX twoDY n (x + 1) (y + 1) (D - twoDX + twoDY)
      else
        bres_loop x0 y0 xx xy yx yy twoDX twoDY n (x + 1) y (D + twoDY))

/-- The `bresenham(x0, y0, x1, y1)` generator of the `bresenham` dependency:
the integer cells of the rasterized segment from `(x0, y0)` to `(x1, y1)`,
endpoints included. -/
def bresenham (x0 y0 x1 y1 : ℤ) : List (ℤ × ℤ) :=
  let dx := x1 - x0
  let dy := y1 - y0
  let xsign : ℤ := if 0 < dx then 1 else -1
  let ysign : ℤ := if 0 < dy then 1 else -1
  let adx := |dx|
  let ady := |dy|
  if ady < adx then
    bres_loop x0 y0 xsign 0 0 ysign (2 * adx) (2 * ady) (adx.toNat + 1) 0 0 (2 * ady - adx)
  else
    bres_loop x0 y0 0 ysign xsign 0 (2 * ady) (2 * adx) (ady.toNat + 1) 0 0 (2 * adx - ady)

/-- One uniform draw of the `sample_from_prior` loop: the `(x, y, θ)` triple
produced by the three `np.random` calls of one iteration. -/
abbrev Draw : Type := ℚ × ℚ × ℚ

/-- The acceptance test of the `sample_from_prior` loop body: the drawn
`(x, y)` truncates to a valid (in-bounds, free) cell. -/
def prior_accept (g : Grid) (d : Draw) : Bool :=
  valid_location g (pyIntQ d.1) (pyIntQ d.2.1)

/-- `sample_from_prior(grid_map, N, state)` of the particle-filter notebook,
over an explicit prefix `draws` of the random stream: the while loop keeps
exactly the draws whose cell is a valid location and stops once `N` are
accepted.  The loop body has no other exit and raises no error. -/
def sample_from_prior (g : Grid) (N : ℕ) (draws : List Draw) : List Draw :=
  (draws.filter (prior_accept g)).take N

/-- Whether the `sample_from_prior` while loop has exited after consuming
the draw prefix `draws`: it exits exactly when `N` draws were accepted. -/
def prior_loop_exits (g : Grid) (N : ℕ) (draws : List Draw) : Bool :=
  decide (N ≤ (draws.filter (prior_accept g)).length)

/-- Cumulative distribution function of `LidarSensor._random_measure`, which
is `np.random.randint(0, max_range + 1)`: a uniform draw over the
`max_range + 1` integers `0, …, max_range`, each of probability
`1 / (max_range + 1)`. -/
def randint_cdf (R : ℕ) (t : ℚ) : ℚ :=
  (((List.range (R + 1)).filter fun (k : ℕ) => decide ((k : ℚ) ≤ t)).length : ℚ) / (R + 1)

/-- Cumulative distribution function of the continuous uniform distribution
on `[0, max_range]`, the distribution whose density `1 / max_range` is the
random-return component of `LidarSensor.lookup_prob`. -/
def uniform_cdf (R : ℕ) (t : ℚ) : ℚ :=
  if t < 0 then 0 else if t ≤ (R : ℚ) then t / R else 1

/-- A 2-component column vector over `ℚ` (the Kalman state `(ż, z)`). -/
structure Vec2 where
  c0 : ℚ
  c1 : ℚ
deriving DecidableEq

/-- A 2×2 matrix over `ℚ`. -/
structure Mat2 where
  m00 : ℚ
  m01 : ℚ
  m10 : ℚ
  m11 : ℚ
deriving DecidableEq

def matMul (A B : Mat2) : Mat2 :=
  ⟨A.m00 * B.m00 + A.m01 * B.m10, A.m00 * B.m01 + A.m01 * B.m11,
   A.m10 * B.m00 + A.m11 * B.m10, A.m10 * B.m01 + A.m11 * B.m11⟩

def matTrans (A : Mat2) : Mat2 :=
  ⟨A.m00, A.m10, A.m01, A.m11⟩

def matAdd (A B : Mat2) : Mat2 :=
  ⟨A.m00 + B.m00, A.m01 + B.m01, A.m10 + B.m10, A.m11 + B.m11⟩

def matSub (A B : Mat2) : Mat2 :=
  ⟨A.m00 - B.m00, A.m01 - B.m01, A.m10 - B.m10, A.m11 - B.m11⟩

def idMat : Mat2 := ⟨1, 0, 0, 1⟩

def matVec (A : Mat2) (v : Vec2) : Vec2 :=
  ⟨A.m00 * v.c0 + A.m01 * v.c1, A.m10 * v.c0 + A.m11 * v.c1⟩

def vecAdd (u v : Vec2) : Vec2 :=
  ⟨u.c0 + v.c0, u.c1 + v.c1⟩

def vecSmul (c : ℚ) (v : Vec2) : Vec2 :=
  ⟨c * v.c0, c * v.c1⟩

/-- `r · A` for a 1×2 row `r` and a 2×2 matrix `A`. -/
def rowMulMat (r : Vec2) (A : Mat2) : Vec2 :=
  ⟨r.c0 * A.m00 + r.c1 * A.m10, r.c0 * A.m01 + r.c1 * A.m11⟩

/-- `r · v` for a 1×2 row `r` and a column `v` (a scalar). -/
def rowMulVec (r v : Vec2) : ℚ :=
  r.c0 * v.c0 + r.c1 * v.c1

/-- The outer product `c · r` of a column and a row (a 2×2 matrix). -/
def outerProd (c r : Vec2) : Mat2 :=
  ⟨c.c0 * r.c0, c.c0 * r.c1, c.c1 * r.c0, c.c1 * r.c1⟩

/-- State of the notebook's `KF` class: sensor-noise covariance `r_t`
(1×1), process-noise covariance `q_t`, time step `dt`, the corrected
belief `(mu, sigma)` and the predicted belief `(mu_bar, sigma_bar)`. -/
structure KF where
  r_t : ℚ
  q_t : Mat2
  dt : ℚ
  mu : Vec2
  sigma : Mat2
  mu_bar : Vec2
  sigma_bar : Mat2

/-- `KF.__init__(sensor_sigma, velocity_sigma, position_sigma, dt)`:
`r_t = sensor_sigma²`, `q_t = diag(velocity_sigma², position_sigma²)`; the
belief placeholders start at zero (the notebook uses 1-element zero arrays
until `initial_values` is called). -/
def KF.init (sensor_sigma velocity_sigma position_sigma dt : ℚ) : KF :=
  ⟨sensor_sigma ^ 2, ⟨velocity_sigma ^ 2, 0, 0, position_sigma ^ 2⟩, dt,
   ⟨0, 0⟩, ⟨0, 0, 0, 0⟩, ⟨0, 0⟩, ⟨0, 0, 0, 0⟩⟩

/-- The `a` property of `KF`: the state-transition matrix
`[[1, 0], [dt, 1]]`. -/
def KF.a (kf : KF) : Mat2 := ⟨1, 0, kf.dt, 1⟩

/-- The `b` property of `KF`: the control-input matrix `[[dt], [0]]`. -/
def KF.b (kf : KF) : Vec2 := ⟨kf.dt, 0⟩

/-- `KF.initial_values(mu_0, sigma_0)`. -/
def KF.initial_values (kf : KF) (mu0 : Vec2) (sigma0 : Mat2) : KF :=
  ⟨kf.r_t, kf.q_t, kf.dt, mu0, sigma0, kf.mu_bar, kf.sigma_bar⟩

/-- The `h_prime` method of `KF`: the observation matrix `H = [0, 1]`
mapping `(ż, z)` to the observed position. -/
def KF.h_prime (_ : KF) : Vec2 := ⟨0, 1⟩

/-- The `h` method of `KF`: `[0, 1] · mu`. -/
def KF.h (_ : KF) (mu : Vec2) : ℚ :=
  0 * mu.c0 + 1 * mu.c1

/-- Modelled from the spec: the body of `KF.predict` is a fill-in stub in
the student notebook; §4.1 prescribes `mean' = A·mean + B·u` and
`covariance' = A·covariance·Aᵀ + Q`, stored as the predicted belief
`(mu_bar, sigma_bar)` and also returned. -/
def KF.predict (kf : KF) (u : ℚ) : KF × (Vec2 × Mat2) :=
  let mb := vecAdd (matVec kf.a kf.mu) (vecSmul u kf.b)
  let sb := matAdd (matMul (matMul kf.a kf.sigma) (matTrans kf.a)) kf.q_t
  (⟨kf.r_t, kf.q_t, kf.dt, kf.mu, kf.sigma, mb, sb⟩, (mb, sb))

/-- Modelled from the spec: the body of `KF.update` is a fill-in stub in
the student notebook; §4.1 prescribes `S = H·Σ̄·Hᵀ + R`,
`K = Σ̄·Hᵀ·S⁻¹`, `mean = mean_bar + K·(z − H·mean_bar)`,
`covariance = (I − K·H)·Σ̄`, with `H` the notebook's `h_prime`. -/
def KF.update (kf : KF) (z : ℚ) : KF × (Vec2 × Mat2) :=
  let H := kf.h_prime
  let S := rowMulVec (rowMulMat H kf.sigma_bar) H + kf.r_t
  let K := vecSmul (1 / S) (matVec kf.sigma_bar H)
  let mu' := vecAdd kf.mu_bar (vecSmul (z - rowMulVec H kf.mu_bar) K)
  let sigma' := matMul (matSub idMat (outerProd K H)) kf.sigma_bar
  (⟨kf.r_t, kf.q_t, kf.dt, mu', sigma', kf.mu_bar, kf.sigma_bar⟩, (mu', sigma'))

/-- A particle / vehicle state `(x, y, θ)`. -/
abbrev PState : Type := ℝ × ℝ × ℝ

/-- `scipy.stats.norm.pdf(x, loc)` with the default scale `1`: the Gaussian
density with mean `loc` and standard deviation `1`. -/
noncomputable def norm_pdf (loc x : ℝ) : ℝ :=
  Real.exp (-(x - loc) ^ 2 / 2) / Real.sqrt (2 * Real.pi)

/-- `LidarSensor.lookup_prob(expected_dist, measured_dist)` for a sensor
with `max_range = R`: `0.95 · norm.pdf(measured, loc=expected)` plus
`0.03 · (1 / max_range)` plus `0.02` exactly when
`measured == max_range`. -/
noncomputable def lookup_prob (R expected measured : ℝ) : ℝ :=
  let norm_prob := 0.95 * norm_pdf expected measured
  let random_prob := 0.03 * (1 / R)
  let failure_prob := if measured = R then (0.02 : ℝ) else 0
  norm_prob + random_prob + failure_prob

/-- `LidarSensor.measure(expected_dist)` with its three random draws made
explicit: `d.1` is the branch draw `np.random.rand()`, `d.2.1` the
standard-normal hit noise (so `_hit_measure` returns
`expected_dist + d.2.1`), `d.2.2` the integer produced by
`np.random.randint(0, max_range + 1)` in `_random_measure`;
`_failure_measure` returns `max_range`. -/
noncomputable def lidar_measure (R expected : ℝ) (d : ℝ × ℝ × ℤ) : ℝ :=
  if d.1 ≤ 0.95 then expected + d.2.1
  else if d.1 ≤ 0.98 then (d.2.2 : ℝ)
  else R

/-- The loop of `get_distance` over the rasterized cells: return the held
distance (still `max_range`) as soon as a cell is out of bounds, and the
Euclidean norm of `(x, y) - cell` at the first obstacle cell; `max_range`
if the cell list is exhausted. -/
noncomputable def scan_cells (g : Grid) (x y R : ℝ) : List (ℤ × ℤ) → ℝ
  | [] => R
  | c :: rest =>
    if inbounds g c.1 c.2 = false then R
    else if g.cell c.1 c.2 = 1 then
      Real.sqrt ((x - (c.1 : ℝ)) ^ 2 + (y - (c.2 : ℝ)) ^ 2)
    else scan_cells g x y R rest

/-- `get_distance(grid_map, sensor, x, y, angle)` (distance component; the
notebook also returns the hit location, which no claim mentions): walk the
`bresenham` cells from `(int x, int y)` to the truncated max-range endpoint
`(int (x + R·cos angle), int (y + R·sin angle))`. -/
noncomputable def get_distance (g : Grid) (R x y angle : ℝ) : ℝ :=
  scan_cells g x y R
    (bresenham (pyInt x) (pyInt y)
      (pyInt (x + R * Real.cos angle)) (pyInt (y + R * Real.sin angle)))

/-- `shoot_rays(grid_map, sensor, state, k)`: ray `i` has bearing
`i * (360 / k)` degrees, producing the angle
`(θ + radians(bearing)) % (2π)`. -/
noncomputable def shoot_rays (g : Grid) (R : ℝ) (st : PState) (k : ℕ) : List ℝ :=
  (List.range k).map fun (i : ℕ) =>
    get_distance g R st.1 st.2.1 (pyMod (st.2.2 + radians ((i : ℝ) * (360 / (k : ℝ)))) (2 * Real.pi))

/-- `importance(grid_map, sensor, state, measured_distances)`: starting from
weight `1`, multiply `lookup_prob(ed, md)` over the zipped expected and
measured distances, the expected ones shot from `state` with
`k = len(measured_distances)` rays. -/
noncomputable def importance (g : Grid) (R : ℝ) (st : PState) (ms : List ℝ) : ℝ :=
  ((shoot_rays g R st ms.length).zip ms).foldl (fun w p => w * lookup_prob R p.1 p.2) 1

/-- The unnormalized weight vector built by the loop of `sensor_fusion`:
one `importance` value per sample. -/
noncomputable def weight_list (g : Grid) (R : ℝ) (samples : List PState) (ms : List ℝ) : List ℝ :=
  samples.map fun s => importance g R s ms

/-- `sensor_fusion(grid_map, sensor, samples, measured_distances)`: compute
the importance weights and divide each by their sum (`weights /= np.sum(weights)`);
the function has no other behavior — in particular no degeneracy check. -/
noncomputable def sensor_fusion (g : Grid) (R : ℝ) (samples : List PState) (ms : List ℝ) : List ℝ :=
  let ws := weight_list g R samples ms
  ws.map fun w => w / ws.sum

/-- `sense(grid, sensor, ground_truth_state, rays)` with the per-ray
measurement draws made explicit: one `measure` reading per expected
distance of `shoot_rays`. -/
noncomputable def sense (g : Grid) (R : ℝ) (st : PState) (rays : ℕ)
    (ds : List (ℝ × ℝ × ℤ)) : List ℝ :=
  List.zipWith (fun dist d => lidar_measure R dist d) (shoot_rays g R st rays) ds

/-- `simulate(state, angle, v, dt)` of the particle-filter notebook with
the three Gaussian noise draws `w` made explicit:
`x' = x + v·cos θ·dt + w₀`, `y' = y + v·sin θ·dt + w₁`,
`θ' = θ + v·tan angle·dt + w₂`. -/
noncomputable def simulate (st : PState) (angle v dt : ℝ) (w : ℝ × ℝ × ℝ) : PState :=
  (st.1 + v * Real.cos st.2.2 * dt + w.1,
   st.2.1 + v * Real.sin st.2.2 * dt + w.2.1,
   st.2.2 + v * Real.tan angle * dt + w.2.2)

/-- Inverse-CDF index selection over a weight list: the first index whose
cumulative weight exceeds the uniform draw `u`. -/
noncomputable def select_index : List ℝ → ℝ → ℕ
  | [], _ => 0
  | w :: rest, u => if u < w then 0 else select_index rest (u - w) + 1

/-- Modelled from the spec: `resample(particles, weights)` is not among the
sources; §4.2 prescribes drawing a new particle set of the same size by
sampling indices with replacement proportional to the weights (multinomial
resampling; one uniform draw per new particle, mapped through the inverse
cumulative distribution of the weights). -/
noncomputable def resample (particles : List PState) (weights : List ℝ) (us : List ℝ) : List PState :=
  us.map fun u => particles.getD (select_index weights u) ((0 : ℝ), (0 : ℝ), (0 : ℝ))

/-- The random draws consumed by one timestep of the particle filter:
ground-truth propagation noise, per-particle propagation noise, per-ray
measurement draws, and per-particle resampling draws. -/
structure StepNoise where
  gt_noise : ℝ × ℝ × ℝ
  p_noise : List (ℝ × ℝ × ℝ)
  m_noise : List (ℝ × ℝ × ℤ)
  r_noise : List ℝ

/-- One cycle of the particle filter: propagate the ground truth and every
particle with `simulate` (at the notebook defaults `angle = 0`, `v = 5`,
`dt = 1`), sense `rays` measurements from the propagated ground truth,
weight the particles with `sensor_fusion`, resample. -/
noncomputable def pf_step (g : Grid) (R : ℝ) (rays : ℕ)
    (pr : List PState × PState) (n : StepNoise) : List PState × PState :=
  let gt' := simulate pr.2 0 5 1 n.gt_noise
  let ps' := List.zipWith (fun s w => simulate s 0 5 1 w) pr.1 n.p_noise
  let ms := sense g R gt' rays n.m_noise
  let ws := sensor_fusion g R ps' ms
  (resample ps' ws n.r_noise, gt')

/-- Modelled from the spec: the body of
`particle_filter(grid, sensor, ground_truth_state, samples, n_timesteps, rays)`
is a fill-in stub in the notebook; §4.2 prescribes, for each timestep,
the propagate / sense / weight / resample cycle of `pf_step`, returning
the final particle set and final ground-truth state.  `noises` carries one
`StepNoise` per timestep, so `n_timesteps = noises.length`. -/
noncomputable def particle_filter (g : Grid) (R : ℝ) (gt : PState) (ps : List PState)
    (noises : List StepNoise) (rays : ℕ) : List PState × PState :=
  noises.foldl (pf_step g R rays) (ps, gt)

/-- The first obstacle cell that the walk of `get_distance` can reach: scan
the rasterized cells in order; leaving the map ends the walk with no
obstacle found, an obstacle cell ends it with that cell. -/
def first_obstacle (g : Grid) : List (ℤ × ℤ) → Option (ℤ × ℤ)
  | [] => none
  | c :: rest =>
    if inbounds g c.1 c.2 = false then none
    else if g.cell c.1 c.2 = 1 then some c
    else first_obstacle g rest

/-! ### Helper lemmas -/

lemma foldl_mul_eq_prod {α : Type} (f : α → ℝ) (l : List α) (init : ℝ) :
    l.foldl (fun w a => w * f a) init = init * (l.map f).prod := by
  induction l generalizing init with
  | nil => simp
  | cons a t ih => simp [ih, mul_assoc]

lemma norm_pdf_pos (loc x : ℝ) : 0 < norm_pdf loc x := by
  have hpi : (0 : ℝ) < Real.sqrt (2 * Real.pi) :=
    Real.sqrt_pos.mpr (by positivity)
  exact div_pos (Real.exp_pos _) hpi

lemma lookup_prob_lb (R e m : ℝ) : 0.03 * (1 / R) ≤ lookup_prob R e m := by
  have h1 : 0 < norm_pdf e m := norm_pdf_pos e m
  simp only [lookup_prob]
  split_ifs <;> nlinarith

lemma lookup_prob_pos (R e m : ℝ) (hR : 0 < R) : 0 < lookup_prob R e m :=
  lt_of_lt_of_le (by positivity) (lookup_prob_lb R e m)

lemma scan_cells_eq_first_obstacle (g : Grid) (x y R : ℝ) (cells : List (ℤ × ℤ)) :
    scan_cells g x y R cells =
      (first_obstacle g cells).elim R
        (fun c => Real.sqrt ((x - (c.1 : ℝ)) ^ 2 + (y - (c.2 : ℝ)) ^ 2)) := by
  induction cells with
  | nil => rfl
  | cons c rest ih =>
    by_cases h1 : inbounds g c.1 c.2 = false
    · simp [scan_cells, first_obstacle, h1]
    · by_cases h2 : g.cell c.1 c.2 = 1
      · simp [scan_cells, first_obstacle, h1, h2]
      · simp [scan_cells, first_obstacle, h1, h2, ih]

/-! ### Claim theorems -/

/-- Claim C1: for every held belief and every control input `u`,
`KF.predict u` returns the pair `(A·mean + B·u, A·covariance·Aᵀ + Q)` and
stores it as the predicted belief `(mu_bar, sigma_bar)`, where the source's
`a`/`b` properties are `[[1, 0], [dt, 1]]` and `[[dt], [0]]` and the
constructor supplies `Q = diag(velocity_sigma², position_sigma²)`.
(`KF.predict` itself is modelled from the spec: its body is a fill-in stub
in the student notebook.) -/
theorem predict_computes_linear_prediction (kf : KF) (u : ℚ) :
    (kf.predict u).2.1 = vecAdd (matVec kf.a kf.mu) (vecSmul u kf.b) ∧
    (kf.predict u).2.2 = matAdd (matMul (matMul kf.a kf.sigma) (matTrans kf.a)) kf.q_t ∧
    ((kf.predict u).1).mu_bar = (kf.predict u).2.1 ∧
    ((kf.predict u).1).sigma_bar = (kf.predict u).2.2 ∧
    kf.a = ⟨1, 0, kf.dt, 1⟩ ∧
    kf.b = ⟨kf.dt, 0⟩ ∧
    ∀ ss vs ps d : ℚ, (KF.init ss vs ps d).q_t = ⟨vs ^ 2, 0, 0, ps ^ 2⟩ :=
  ⟨rfl, rfl, rfl, rfl, rfl, rfl, fun _ _ _ _ => rfl⟩

/-- Claim C8: after any `predict`, an `update` whose observation is exactly
`H·mu_bar` (the source's `h` of the predicted mean) leaves the corrected
mean equal to `mu_bar`: the innovation vanishes, so the gain contributes
nothing.  (`predict`/`update` assembly modelled from the spec, their bodies
being fill-in stubs; `h`/`h_prime` are from the source.) -/
theorem predict_update_matching_observation_noop (kf : KF) (u : ℚ) :
    (((kf.predict u).1).update (KF.h (kf.predict u).1 ((kf.predict u).1).mu_bar)).1.mu =
      ((kf.predict u).1).mu_bar := by
  simp only [KF.update, KF.predict, KF.h, KF.h_prime, vecAdd, vecSmul, rowMulVec,
    rowMulMat, matVec]
  ring_nf

/-- Claim C3: `lookup_prob(expected, measured)` is exactly
`0.95 · N(measured; mean = expected, std = 1) + 0.03 · (1 / max_range)`
plus a point mass of `0.02` iff `measured = max_range`. -/
theorem lookup_prob_is_fixed_mixture (R e m : ℝ) :
    lookup_prob R e m =
      0.95 * (Real.exp (-((m - e) ^ 2) / (2 * 1 ^ 2)) / (1 * Real.sqrt (2 * Real.pi))) +
        0.03 * (1 / R) + (if m = R then 0.02 else 0) := by
  simp [lookup_prob, norm_pdf]

/-- Claim C7: `importance` is the product, over the ray indices, of
`lookup_prob(expected_i, measured_i)`, the expected distances being
`shoot_rays` from the state with `k = len(measured_distances)` rays (which
indeed yields one expected distance per measured one). -/
theorem importance_is_product_of_lookup_probs (g : Grid) (R : ℝ) (st : PState) (ms : List ℝ) :
    importance g R st ms =
      (((shoot_rays g R st ms.length).zip ms).map fun p => lookup_prob R p.1 p.2).prod ∧
    (shoot_rays g R st ms.length).length = ms.length := by
  constructor
  · have h := foldl_mul_eq_prod (fun p : ℝ × ℝ => lookup_prob R p.1 p.2)
      ((shoot_rays g R st ms.length).zip ms) 1
    simpa [importance] using h
  · rw [shoot_rays, List.length_map, List.length_range]

/-- Claim C2 (amended): `sensor_fusion` always returns the importance
weights divided by their sum — one entry per sample, with no degeneracy
check and no error path of any kind. -/
theorem sensor_fusion_normalizes_unconditionally (g : Grid) (R : ℝ)
    (samples : List PState) (ms : List ℝ) :
    sensor_fusion g R samples ms =
      (weight_list g R samples ms).map (fun w => w / (weight_list g R samples ms).sum) ∧
    (sensor_fusion g R samples ms).length = samples.length := by
  refine ⟨rfl, ?_⟩
  simp [sensor_fusion, weight_list]

/-- Claim C2 (counterexample): on an empty particle set the unnormalized
weight sum is `0`, yet `sensor_fusion` returns the (empty) weight vector —
no degenerate-distribution error is reported on a zero sum. -/
theorem sensor_fusion_zero_sum_counterexample :
    (weight_list grid_obs 100 [] [50]).sum = 0 ∧
    sensor_fusion grid_obs 100 [] [50] = [] := by
  constructor <;> simp [weight_list, sensor_fusion]

/-- Claim C5: the particle filter performs, for each timestep, exactly the
cycle — propagate the ground truth and every particle with `simulate`,
sense `rays` measurements from the propagated ground truth, weight with
`sensor_fusion`, resample from those weights — and after the last timestep
returns the final particle set and final ground-truth state.
(`particle_filter` and `resample` are modelled from the spec, the notebook
body being a fill-in stub; `simulate`, `sense` and `sensor_fusion` are
embedded from the sources.) -/
theorem particle_filter_cycle_spec :
    (∀ (g : Grid) (R : ℝ) (gt : PState) (ps : List PState) (rays : ℕ),
        particle_filter g R gt ps [] rays = (ps, gt)) ∧
    (∀ (g : Grid) (R : ℝ) (gt : PState) (ps : List PState) (n : StepNoise)
        (rest : List StepNoise) (rays : ℕ),
        particle_filter g R gt ps (n :: rest) rays =
          particle_filter g R (simulate gt 0 5 1 n.gt_noise)
            (resample (List.zipWith (fun s w => simulate s 0 5 1 w) ps n.p_noise)
              (sensor_fusion g R (List.zipWith (fun s w => simulate s 0 5 1 w) ps n.p_noise)
                (sense g R (simulate gt 0 5 1 n.gt_noise) rays n.m_noise))
              n.r_noise)
            rest rays) := by
  refine ⟨fun _ _ _ _ _ => rfl, fun _ _ _ _ _ _ _ => rfl⟩

/-- Claim C6 (amended): over any prefix of the draw stream, the
`sample_from_prior` loop accepts exactly the draws landing on valid
(in-bounds, free) cells and stops after `N` acceptances; on a map with no
free cell it accepts nothing — for every draw prefix the accepted list is
empty and the loop has not exited — and no configuration error is raised
(the loop has no error path). -/
theorem sample_from_prior_filter_spec :
    (∀ (g : Grid) (N : ℕ) (draws : List Draw),
        (sample_from_prior g N draws).length = min N (draws.filter (prior_accept g)).length ∧
        ∀ s ∈ sample_from_prior g N draws,
          valid_location g (pyIntQ s.1) (pyIntQ s.2.1) = true) ∧
    (∀ (g : Grid) (N : ℕ) (draws : List Draw),
        (∀ x y, g.cell x y ≠ 0) →
          sample_from_prior g N draws = [] ∧
          (1 ≤ N → prior_loop_exits g N draws = false)) := by
  constructor
  · intro g N draws
    refine ⟨List.length_take _ _, fun s hs => ?_⟩
    have hs' : s ∈ draws.filter (prior_accept g) := List.take_subset _ _ hs
    exact (List.mem_filter.mp hs').2
  · intro g N draws hfree
    have hacc : ∀ d : Draw, prior_accept g d = false := by
      intro d
      simp [prior_accept, valid_location, hfree (pyIntQ d.1) (pyIntQ d.2.1)]
    have hfil : draws.filter (prior_accept g) = [] := by
      apply List.filter_eq_nil_iff.mpr
      intro a _
      simp [hacc a]
    refine ⟨?_, ?_⟩
    · simp [sample_from_prior, hfil]
    · intro hN
      simp [prior_loop_exits, hfil]
      omega

/-- Claim C6 (witness): applying the amended theorem at concrete inputs —
a free 2×2 map where a single draw is accepted and valid, and the
all-obstacle map where a concrete draw prefix yields no accepted sample
and a still-running loop. -/
theorem sample_from_prior_filter_spec_witness :
    valid_location grid_free (pyIntQ (1 : ℚ)) (pyIntQ (1 : ℚ)) = true ∧
    sample_from_prior grid_obs 1 [((1 : ℚ) / 2, (1 : ℚ) / 2, 0)] = [] ∧
    prior_loop_exits grid_obs 1 [((1 : ℚ) / 2, (1 : ℚ) / 2, 0)] = false :=
  ⟨(sample_from_prior_filter_spec.1 grid_free 1 [((1 : ℚ), (1 : ℚ), (0 : ℚ))]).2
      ((1 : ℚ), (1 : ℚ), (0 : ℚ))
      (by
        have hacc : prior_accept grid_free ((1 : ℚ), (1 : ℚ), (0 : ℚ)) = true := by
          simp [prior_accept, valid_location, inbounds, grid_free, pyIntQ]
        simp [sample_from_prior, List.filter, hacc]),
   (sample_from_prior_filter_spec.2 grid_obs 1 [((1 : ℚ) / 2, (1 : ℚ) / 2, 0)]
      (fun _ _ => Nat.one_ne_zero)).1,
   (sample_from_prior_filter_spec.2 grid_obs 1 [((1 : ℚ) / 2, (1 : ℚ) / 2, 0)]
      (fun _ _ => Nat.one_ne_zero)).2 (by decide)⟩

/-- Claim C6 (counterexample): on the all-obstacle 2×2 map, a draw prefix
of six draws covering every cell yields no accepted sample and the
`sample_from_prior` loop has not exited — the code raises no configuration
error at any point: it would simply keep drawing forever. -/
theorem sample_from_prior_no_fail_fast_counterexample :
    sample_from_prior grid_obs 1
        [(0, 0, 0), ((1 : ℚ) / 2, (1 : ℚ) / 2, 0), (1, 1, 0),
         ((3 : ℚ) / 2, (3 : ℚ) / 2, 0), (0, 1, 0), (1, 0, 0)] = [] ∧
    prior_loop_exits grid_obs 1
        [(0, 0, 0), ((1 : ℚ) / 2, (1 : ℚ) / 2, 0), (1, 1, 0),
         ((3 : ℚ) / 2, (3 : ℚ) / 2, 0), (0, 1, 0), (1, 0, 0)] = false := by
  have hacc : ∀ d : Draw, prior_accept grid_obs d = false := by
    intro d
    simp [prior_accept, valid_location, grid_obs]
  have hfil :
      ([(0, 0, 0), ((1 : ℚ) / 2, (1 : ℚ) / 2, 0), (1, 1, 0),
        ((3 : ℚ) / 2, (3 : ℚ) / 2, 0), (0, 1, 0), (1, 0, 0)] : List Draw).filter
          (prior_accept grid_obs) = [] := by
    rw [List.filter_eq_nil_iff]
    intro a _
    rw [hacc a]
    simp
  refine ⟨?_, ?_⟩
  · rw [sample_from_prior, hfil]
    simp
  · rw [prior_loop_exits, hfil]
    simp

/-- Claim C9 (amended): `measure` takes the hit branch (Gaussian around the
expected distance, std 1) for branch draw `p ≤ 0.95`, the random branch
(the integer from `randint(0, max_range + 1)`) for `0.95 < p ≤ 0.98`, and
the failure branch (exactly `max_range`) otherwise — branch probabilities
0.95/0.03/0.02 — and `lookup_prob` at `measured = max_range` carries the
matching `0.02` term; but the random branch draws a discrete uniform
integer while `lookup_prob` scores a continuous uniform density
`1 / max_range`, so `lookup_prob` is not the exact likelihood of the
generative process. -/
theorem measure_lookup_mixture_structure (R e p gd : ℝ) (r : ℤ) :
    (p ≤ 0.95 → lidar_measure R e (p, gd, r) = e + gd) ∧
    (0.95 < p → p ≤ 0.98 → lidar_measure R e (p, gd, r) = (r : ℝ)) ∧
    (0.98 < p → lidar_measure R e (p, gd, r) = R) ∧
    lookup_prob R e R = 0.95 * norm_pdf e R + 0.03 * (1 / R) + 0.02 := by
  refine ⟨?_, ?_, ?_, ?_⟩
  · intro h
    simp [lidar_measure, h]
  · intro h1 h2
    simp [lidar_measure, h2, not_le.mpr h1]
  · intro h
    have h1 : ¬ p ≤ (0.98 : ℝ) := not_le.mpr h
    have h2 : ¬ p ≤ (0.95 : ℝ) := not_le.mpr (lt_trans (by norm_num) h)
    simp [lidar_measure, h1, h2]
  · simp [lookup_prob]

/-- Claim C9 (witness): the three branches of `measure` at concrete draws. -/
theorem measure_lookup_mixture_structure_witness :
    lidar_measure 100 3 (0.5, 1, 7) = 3 + 1 ∧
    lidar_measure 100 3 (0.96, 1, 7) = ((7 : ℤ) : ℝ) ∧
    lidar_measure 100 3 (0.99, 1, 7) = 100 :=
  ⟨(measure_lookup_mixture_structure 100 3 0.5 1 7).1 (by norm_num),
   (measure_lookup_mixture_structure 100 3 0.96 1 7).2.1 (by norm_num) (by norm_num),
   (measure_lookup_mixture_structure 100 3 0.99 1 7).2.2.1 (by norm_num)⟩

/-- Claim C9 (counterexample): for `max_range = 100` the distribution drawn
by `measure`'s random branch (`randint(0, 101)`, a uniform integer in
`{0, …, 100}`) differs from the continuous uniform on `[0, 100]` whose
density `1 / 100` `lookup_prob` scores: already their cumulative
distribution functions disagree at `1/2` (`1/101` against `1/200`), so
`lookup_prob` cannot be the exact likelihood of `measure`'s generative
process. -/
theorem measure_random_branch_cdf_mismatch :
    randint_cdf 100 (1 / 2) = 1 / 101 ∧
    uniform_cdf 100 (1 / 2) = 1 / 200 ∧
    randint_cdf 100 (1 / 2) ≠ uniform_cdf 100 (1 / 2) := by
  have hfil : ((List.range (100 + 1)).filter fun (k : ℕ) => decide ((k : ℚ) ≤ 1 / 2)) =
      ((List.range (100 + 1)).filter fun (k : ℕ) => decide (k = 0)) := by
    apply List.filter_congr
    intro k _
    rcases Nat.eq_zero_or_pos k with h | h
    · subst h; norm_num
    · have h1 : (1 : ℚ) ≤ (k : ℚ) := by exact_mod_cast h
      have h2 : ¬ ((k : ℚ) ≤ 1 / 2) := by linarith
      simp [h2, Nat.pos_iff_ne_zero.mp h]
      linarith
  have hone : ((List.range (100 + 1)).filter fun (k : ℕ) => decide (k = 0)) = [0] := by
    decide
  have hr : randint_cdf 100 (1 / 2) = 1 / 101 := by
    rw [randint_cdf, hfil, hone]
    norm_num
  have hu : uniform_cdf 100 (1 / 2) = 1 / 200 := by
    rw [uniform_cdf]
    norm_num
  refine ⟨hr, hu, ?_⟩
  rw [hr, hu]
  norm_num

/-- Claim C10: for a sensor with positive max range, every `lookup_prob`
value is at least the random-return floor `0.03 · (1 / max_range)`, hence
every `importance` weight is strictly positive and the unnormalized weight
sum of `sensor_fusion` over a non-empty particle set is strictly positive
(in exact arithmetic; only floating-point underflow could produce an
all-zero weight vector). -/
theorem importance_weights_strictly_positive (g : Grid) (R : ℝ) (st : PState)
    (ms : List ℝ) (samples : List PState) (hR : 0 < R) :
    (∀ e m, 0.03 * (1 / R) ≤ lookup_prob R e m) ∧
    0 < importance g R st ms ∧
    (samples ≠ [] → 0 < (weight_list g R samples ms).sum) := by
  have himp : ∀ (st' : PState) (ms' : List ℝ), 0 < importance g R st' ms' := by
    intro st' ms'
    have h := foldl_mul_eq_prod (fun p : ℝ × ℝ => lookup_prob R p.1 p.2)
      ((shoot_rays g R st' ms'.length).zip ms') 1
    rw [importance, h, one_mul]
    apply List.prod_pos
    intro a ha
    rcases List.mem_map.mp ha with ⟨p, _, hp⟩
    rw [← hp]
    exact lookup_prob_pos R p.1 p.2 hR
  refine ⟨fun e m => lookup_prob_lb R e m, himp st ms, ?_⟩
  intro hne
  match samples with
  | [] => exact absurd rfl hne
  | s :: t =>
    have hrest : 0 ≤ (weight_list g R t ms).sum := by
      apply List.sum_nonneg
      intro a ha
      rcases List.mem_map.mp ha with ⟨p, _, hp⟩
      exact le_of_lt (hp ▸ himp p ms)
    have hs := himp s ms
    simp only [weight_list, List.map_cons, List.sum_cons]
    have : (weight_list g R t ms).sum = (t.map fun s => importance g R s ms).sum := rfl
    linarith [this ▸ hrest]

/-- Claim C10 (witness): positivity at a concrete grid, sensor, state,
measurement list and one-particle set. -/
theorem importance_weights_strictly_positive_witness :
    0 < importance grid_obs 100 (0, 0, 0) [1] ∧
    0 < (weight_list grid_obs 100 [((0 : ℝ), (0 : ℝ), (0 : ℝ))] [1]).sum :=
  ⟨(importance_weights_strictly_positive grid_obs 100 (0, 0, 0) [1]
      [((0 : ℝ), (0 : ℝ), (0 : ℝ))] (by norm_num)).2.1,
   (importance_weights_strictly_positive grid_obs 100 (0, 0, 0) [1]
      [((0 : ℝ), (0 : ℝ), (0 : ℝ))] (by norm_num)).2.2 (by simp)⟩

/-! ### Lemmas for the ray-casting claim -/

lemma sqrt_two_bounds : (1.41 : ℝ) ≤ Real.sqrt 2 ∧ Real.sqrt 2 ≤ 1.415 := by
  have h := Real.sq_sqrt (show (0 : ℝ) ≤ 2 by norm_num)
  have hn := Real.sqrt_nonneg 2
  constructor <;> nlinarith

lemma pyInt_x45 : pyInt ((385 : ℝ) + 100 * Real.cos (Real.pi / 4)) = 455 := by
  rcases sqrt_two_bounds with ⟨h1, h2⟩
  rw [Real.cos_pi_div_four]
  have harg : (0 : ℝ) ≤ 385 + 100 * (Real.sqrt 2 / 2) := by nlinarith
  rw [pyInt, if_pos harg, Int.floor_eq_iff]
  refine ⟨?_, ?_⟩ <;> push_cast <;> nlinarith

lemma pyInt_y45 : pyInt ((450 : ℝ) + 100 * Real.sin (Real.pi / 4)) = 520 := by
  rcases sqrt_two_bounds with ⟨h1, h2⟩
  rw [Real.sin_pi_div_four]
  have harg : (0 : ℝ) ≤ 450 + 100 * (Real.sqrt 2 / 2) := by nlinarith
  rw [pyInt, if_pos harg, Int.floor_eq_iff]
  refine ⟨?_, ?_⟩ <;> push_cast <;> nlinarith

lemma pyInt_385 : pyInt (385 : ℝ) = 385 := by
  rw [pyInt, if_pos (by norm_num : (0 : ℝ) ≤ 385)]
  norm_num

lemma pyInt_450 : pyInt (450 : ℝ) = 450 := by
  rw [pyInt, if_pos (by norm_num : (0 : ℝ) ≤ 450)]
  norm_num

lemma first_obstacle_c4 :
    first_obstacle gridC4 (bresenham 385 450 455 520) = some (435, 500) := by
  decide

lemma pyMod_two_pi_range (a : ℝ) :
    0 ≤ pyMod a (2 * Real.pi) ∧ pyMod a (2 * Real.pi) < 2 * Real.pi := by
  have hb : (0 : ℝ) < 2 * Real.pi := by positivity
  have h3 : (2 * Real.pi) * (a / (2 * Real.pi)) = a := by field_simp
  constructor
  · have h := Int.floor_le (a / (2 * Real.pi))
    have h2 : (2 * Real.pi) * ((⌊a / (2 * Real.pi)⌋ : ℝ)) ≤ (2 * Real.pi) * (a / (2 * Real.pi)) :=
      mul_le_mul_of_nonneg_left h (le_of_lt hb)
    rw [pyMod]
    linarith
  · have h := Int.lt_floor_add_one (a / (2 * Real.pi))
    have h2 : (2 * Real.pi) * (a / (2 * Real.pi)) <
        (2 * Real.pi) * ((⌊a / (2 * Real.pi)⌋ : ℝ) + 1) :=
      mul_lt_mul_of_pos_left h hb
    have h4 : (2 * Real.pi) * ((⌊a / (2 * Real.pi)⌋ : ℝ) + 1) =
        (2 * Real.pi) * ((⌊a / (2 * Real.pi)⌋ : ℝ)) + 2 * Real.pi := by ring
    rw [pyMod]
    linarith

lemma shoot_rays_getD (g : Grid) (R : ℝ) (st : PState) (k : ℕ) (i : Fin k) :
    (shoot_rays g R st k).getD i 0 =
      get_distance g R st.1 st.2.1
        (pyMod (st.2.2 + 2 * Real.pi * (i : ℝ) / (k : ℝ)) (2 * Real.pi)) := by
  have hk : (k : ℝ) ≠ 0 := Nat.cast_ne_zero.mpr (Nat.pos_iff_ne_zero.mp i.pos)
  have hang : radians ((i : ℝ) * (360 / (k : ℝ))) = 2 * Real.pi * (i : ℝ) / (k : ℝ) := by
    rw [radians]
    field_simp
    ring
  rw [shoot_rays, List.getD_eq_getElem?_getD, List.getElem?_map, List.getElem?_range i.isLt]
  simp only [Option.map_some', Option.getD_some]
  rw [hang]

lemma sqrt5000_bounds : 70.71 < Real.sqrt 5000 ∧ Real.sqrt 5000 < 70.72 := by
  have h := Real.sq_sqrt (show (0 : ℝ) ≤ 5000 by norm_num)
  have hn := Real.sqrt_nonneg 5000
  constructor <;> nlinarith

lemma get_distance_c4_concrete :
    get_distance gridC4 100 385 450 (Real.pi / 4) = Real.sqrt 5000 := by
  rw [get_distance, pyInt_x45, pyInt_y45, pyInt_385, pyInt_450,
    scan_cells_eq_first_obstacle, first_obstacle_c4]
  simp only [Option.elim]
  norm_num

/-- Claim C4: `get_distance` equals the distance to the first occupied cell
on the `bresenham` walk toward the truncated max-range endpoint (max range
when the walk leaves the map or finds no obstacle); each `shoot_rays` entry
`i` is `get_distance` at the heading offset by `i·360/k` degrees
(`2πi/k` radians) wrapped into `[0, 2π)` — `pyMod · (2π)` indeed lands in
`[0, 2π)` — and the concrete ray from `(385, 450)` at 45° against the
obstacle cell `(435, 500)` returns `√5000 ≈ 70.71`. -/
theorem get_distance_ray_walk_spec :
    (∀ (g : Grid) (R x y angle : ℝ),
        get_distance g R x y angle =
          (first_obstacle g
              (bresenham (pyInt x) (pyInt y)
                (pyInt (x + R * Real.cos angle)) (pyInt (y + R * Real.sin angle)))).elim R
            (fun c => Real.sqrt ((x - (c.1 : ℝ)) ^ 2 + (y - (c.2 : ℝ)) ^ 2))) ∧
    (∀ (g : Grid) (R : ℝ) (st : PState) (k : ℕ) (i : Fin k),
        (shoot_rays g R st k).getD i 0 =
          get_distance g R st.1 st.2.1
            (pyMod (st.2.2 + 2 * Real.pi * (i : ℝ) / (k : ℝ)) (2 * Real.pi))) ∧
    (∀ a : ℝ, 0 ≤ pyMod a (2 * Real.pi) ∧ pyMod a (2 * Real.pi) < 2 * Real.pi) ∧
    get_distance gridC4 100 385 450 (Real.pi / 4) = Real.sqrt 5000 ∧
    70.71 < Real.sqrt 5000 ∧ Real.sqrt 5000 < 70.72 :=
  ⟨fun g R x y angle => by rw [get_distance, scan_cells_eq_first_obstacle],
   shoot_rays_getD, pyMod_two_pi_range, get_distance_c4_concrete, sqrt5000_bounds⟩
